import Mathlib

/-!
Shallow embedding of the Pylon session core (src/core/src/lib.rs of pylon-apps/pylon).

The Pylon struct wraps the external magic-wormhole library.  External collaborators
(magic-wormhole and the url crate) are modelled by an explicit environment `Env` of
call outcomes, so that every theorem quantifies over all behaviours of the external
world.  Rust panics (the two `.unwrap()` calls on `self.relay_url.parse()`, lines
170 and 207) are modelled by a distinguished `panicked` outcome of `CallResult`.
-/

/-- Opaque token standing for magic_wormhole::Wormhole (an established secure channel). -/
abbrev Wormhole := Nat

/-- Opaque token standing for the boxed in-flight client-client handshake future (line 26). -/
abbrev Handshake := Nat

/-- Opaque token standing for magic_wormhole::transfer::ReceiveRequest (an inbound offer). -/
abbrev ReceiveRequest := Nat

/-- Opaque token standing for a url::Url value that `str::parse` produced successfully. -/
abbrev Url := String

/-- Opaque token standing for magic_wormhole::transit::RelayHint. -/
abbrev RelayHint := String

/-- The five variants of PylonError (lib.rs lines 33-60).  Payloads of the wrapped
external errors (RelayHintParseError, TransferError, WormholeError) are modelled as
their display strings. -/
inductive PylonError where
  | CodegenError (msg : String)
  | RelayHintParseError (cause : String)
  | TransferError (cause : String)
  | InternalError (cause : String)
  | Error (msg : String)
  deriving DecidableEq, Repr

/-- The kind of a PylonError, one per variant, for programmatic branching. -/
inductive ErrorKind where
  | codegenError
  | relayHintParseError
  | transferError
  | internalError
  | genericError
  deriving DecidableEq, Repr, Fintype

/-- Classifies a PylonError by its variant. -/
def PylonError.kind : PylonError → ErrorKind
  | .CodegenError _ => .codegenError
  | .RelayHintParseError _ => .relayHintParseError
  | .TransferError _ => .transferError
  | .InternalError _ => .internalError
  | .Error _ => .genericError

/-- Display message of each error, from the thiserror attributes on lines 36-58.
The InternalError variant is transparent: it displays its wrapped cause. -/
def PylonError.message : PylonError → String
  | .CodegenError msg => "Error generating wormhole code: " ++ msg
  | .RelayHintParseError _ => "Error parsing relay server URL"
  | .TransferError _ => "Error occured during transfer"
  | .InternalError cause => cause
  | .Error msg => "An error occured: " ++ msg

/-- Outcome of one Rust call as observed by the caller: an Ok value, an Err value,
or a panic unwinding out of the function. -/
inductive CallResult (α : Type) where
  | ok (a : α)
  | err (e : PylonError)
  | panicked (msg : String)
  deriving DecidableEq, Repr

/-- The error kind of a CallResult, when it is an Err. -/
def CallResult.errKind : CallResult α → Option ErrorKind
  | .err e => some e.kind
  | _ => none

/-- PylonConfig (lib.rs lines 63-70): application id, rendezvous URL, relay URL. -/
structure PylonConfig where
  id : String
  rendezvous_url : String
  relay_url : String
  deriving DecidableEq, Repr

/-- The magic_wormhole::AppConfig\<AppVersion\> value built in Pylon::new (lines 105-109);
the app_version field is the empty AppVersion struct and is omitted. -/
structure AppConfig where
  id : String
  rendezvous_url : String
  deriving DecidableEq, Repr

/-- The Pylon session state (lib.rs lines 84-90). -/
structure Pylon where
  handshake : Option Handshake
  wormhole : Option Wormhole
  transfer_request : Option ReceiveRequest
  relay_url : String
  config : AppConfig
  deriving DecidableEq, Repr

/-- Externally observable calls an operation makes to the outside world. -/
inductive Effect where
  | connect
  | transferSendCall
  | transferRequestCall
  deriving DecidableEq, Repr

/-- Outcomes of the external collaborators for one operation invocation:
url parsing (url crate), relay-hint construction, Wormhole::connect_without_code,
transfer::send_file and transfer::request_file (magic-wormhole crate). -/
structure Env where
  urlParse : String → Option Url
  relayHintFromUrls : Url → Except String RelayHint
  connectWithoutCode : AppConfig → Nat → Except String (String × Handshake)
  transferSend : Wormhole → List RelayHint → String → Nat → Except String Unit
  transferRequest : Wormhole → List RelayHint → Except String (Option ReceiveRequest)

/-- Pylon::new (lib.rs lines 99-111). -/
def Pylon.new (config : PylonConfig) : Pylon where
  handshake := none
  wormhole := none
  transfer_request := none
  relay_url := config.relay_url
  config := { id := config.id, rendezvous_url := config.rendezvous_url }

/-- Pylon::gen_code (lib.rs lines 119-137): reject if a handshake is pending, reject if
the wormhole is already initialized, otherwise connect without code, store the handshake
and return the welcome code. -/
def Pylon.gen_code (p : Pylon) (env : Env) (code_length : Nat) :
    CallResult String × Pylon × List Effect :=
  if p.handshake.isSome then
    (.err (.CodegenError "The current Pylon already has a pending handshake"), p, [])
  else if p.wormhole.isSome then
    (.err (.CodegenError "The current Pylon has already been initialized"), p, [])
  else
    match env.connectWithoutCode p.config code_length with
    | .error e => (.err (.InternalError e), p, [.connect])
    | .ok (code, hs) => (.ok code, { p with handshake := some hs }, [.connect])

/-- Lines 168-171 and 205-208: vec with the single element RelayHint::from_urls of
self.relay_url.parse().unwrap().  A url-parse failure hits the unwrap and panics; a
from_urls failure propagates as PylonError::RelayHintParseError via the From impl. -/
def resolveRelayHints (env : Env) (relay_url : String) : CallResult (List RelayHint) :=
  match env.urlParse relay_url with
  | none => .panicked "called Result::unwrap on an Err value"
  | some u =>
    match env.relayHintFromUrls u with
    | .error e => .err (.RelayHintParseError e)
    | .ok h => .ok [h]

/-- Pylon::send_file (lib.rs lines 150-190): resolve relay hints first, then take the
wormhole (Error when absent), then run the transfer-layer send; its failure is wrapped
as TransferError.  The file reader, progress handler and cancel handler live inside
the transferSend outcome of the environment. -/
def Pylon.send_file (p : Pylon) (env : Env) (file_name : String) (file_size : Nat) :
    CallResult Unit × Pylon × List Effect :=
  match resolveRelayHints env p.relay_url with
  | .panicked m => (.panicked m, p, [])
  | .err e => (.err e, p, [])
  | .ok hints =>
    let taken := { p with wormhole := none }
    match p.wormhole with
    | none => (.err (.Error "Wormhole not initialized"), taken, [])
    | some wh =>
      match env.transferSend wh hints file_name file_size with
      | .error e => (.err (.TransferError e), taken, [.transferSendCall])
      | .ok _ => (.ok (), taken, [.transferSendCall])

/-- Pylon::request_file (lib.rs lines 198-219): resolve relay hints first, then take the
wormhole (Error when absent), then run the transfer-layer request; on success the
returned optional offer is stored in transfer_request. -/
def Pylon.request_file (p : Pylon) (env : Env) :
    CallResult Unit × Pylon × List Effect :=
  match resolveRelayHints env p.relay_url with
  | .panicked m => (.panicked m, p, [])
  | .err e => (.err e, p, [])
  | .ok hints =>
    let taken := { p with wormhole := none }
    match p.wormhole with
    | none => (.err (.Error "Wormhole not initialized"), taken, [])
    | some wh =>
      match env.transferRequest wh hints with
      | .error e => (.err (.TransferError e), taken, [.transferRequestCall])
      | .ok req => (.ok (), { taken with transfer_request := req }, [.transferRequestCall])

/-- Pylon::destroy (lib.rs lines 227-229): just drops the Pylon. -/
def Pylon.destroy (_p : Pylon) : Unit := ()

/-- One invocation of a public Pylon operation, carrying the external-call outcomes
in force during that invocation. -/
inductive Op where
  | genCode (env : Env) (code_length : Nat)
  | sendFile (env : Env) (file_name : String) (file_size : Nat)
  | requestFile (env : Env)

/-- The session state after one public call (the returned result is discarded). -/
def Pylon.applyOp (p : Pylon) : Op → Pylon
  | .genCode env n => (p.gen_code env n).2.1
  | .sendFile env name size => (p.send_file env name size).2.1
  | .requestFile env => (p.request_file env).2.1

/-- The session state after a sequence of public calls. -/
def Pylon.run (p : Pylon) (ops : List Op) : Pylon :=
  ops.foldl Pylon.applyOp p

/-- Modelled from the spec: the byte-streaming loop of the external transfer layer
(magic_wormhole::transfer::send_file, not part of this repository) reports cumulative
bytes sent at each chunk boundary.  prefixSums cs acc lists the running totals after
each chunk when acc bytes were already sent. -/
def prefixSums : List Nat → Nat → List Nat
  | [], _ => []
  | c :: cs, acc => (acc + c) :: prefixSums cs (acc + c)

/-- Modelled from the spec: the arguments (bytes_sent, total_bytes) of the successive
progress-handler invocations during a send that streams the given chunks of a file of
total bytes. -/
def progressCalls (total : Nat) (chunks : List Nat) : List (Nat × Nat) :=
  (prefixSums chunks 0).map (fun sent => (sent, total))

/-- Concrete external outcomes for sample runs: the url crate rejects the empty string
(RelativeUrlWithoutBase), a gopher URL parses but is not a valid relay hint, every other
string used here parses and resolves; connecting yields the code 7-guitarist-revenge and
handshake token 7; transfers succeed and the peer offers nothing. -/
def envDemo : Env where
  urlParse := fun s => if s = "" then none else some s
  relayHintFromUrls := fun u =>
    if u = "gopher://relay.example/" then .error "Unknown scheme" else .ok u
  connectWithoutCode := fun _ _ => .ok ("7-guitarist-revenge", 7)
  transferSend := fun _ _ _ _ => .ok ()
  transferRequest := fun _ _ => .ok none

/-- A sample configuration with a relay URL that parses and resolves to a hint. -/
def cfgDemo : PylonConfig where
  id := "io.github.pylon-apps.pylon"
  rendezvous_url := "ws://relay.magic-wormhole.io:4000/v1"
  relay_url := "tcp://transit.magic-wormhole.io:4001"

/-- A freshly constructed session. -/
def pFresh : Pylon := Pylon.new cfgDemo

/-- A fresh session whose relay URL is the empty string. -/
def pEmptyRelay : Pylon := Pylon.new { cfgDemo with relay_url := "" }

/-- A fresh session whose relay URL parses as a URL but is not a valid relay hint. -/
def pBadHintRelay : Pylon := Pylon.new { cfgDemo with relay_url := "gopher://relay.example/" }

/-- A session with a pending handshake. -/
def pHandshaking : Pylon := { pFresh with handshake := some 7 }

/-- A session whose wormhole field holds an established channel. -/
def pConnected : Pylon := { pFresh with wormhole := some 42 }

/-- C1: the claim fails on the code.  At the failing input — a session whose relay URL is
the empty string, which the url crate rejects — send_file and request_file panic at the
unwrap of lines 170 and 207 instead of returning the relay-address parse error kind as an
ordinary Result value: the panic crosses the session boundary. -/
theorem send_request_empty_relay_url_panics :
    (pEmptyRelay.send_file envDemo "test.bin" 1024).1
        = .panicked "called Result::unwrap on an Err value" ∧
    (pEmptyRelay.request_file envDemo).1
        = .panicked "called Result::unwrap on an Err value" := by
  constructor <;> rfl

/-- C2: gen_code on a session with a pending handshake or an established channel fails
with the CodegenError kind, returns every field of the session unchanged, and makes no
external call, so no connection attempt precedes the precondition check. -/
theorem gen_code_precondition (p : Pylon) (env : Env) (n : Nat)
    (h : p.handshake.isSome = true ∨ p.wormhole.isSome = true) :
    (p.gen_code env n).1.errKind = some .codegenError ∧
    (p.gen_code env n).2.1 = p ∧
    (p.gen_code env n).2.2 = [] := by
  rcases h with h | h
  · simp [Pylon.gen_code, h, CallResult.errKind, PylonError.kind]
  · by_cases hh : p.handshake.isSome = true
    · simp [Pylon.gen_code, hh, CallResult.errKind, PylonError.kind]
    · simp [Pylon.gen_code, hh, h, CallResult.errKind, PylonError.kind]

/-- Witness for C2: a session with a pending handshake. -/
theorem gen_code_precondition_witness :
    (pHandshaking.gen_code envDemo 2).1.errKind = some .codegenError ∧
    (pHandshaking.gen_code envDemo 2).2.1 = pHandshaking ∧
    (pHandshaking.gen_code envDemo 2).2.2 = [] :=
  gen_code_precondition pHandshaking envDemo 2 (Or.inl rfl)

/-- C9: the error taxonomy is a closed set of exactly five kinds and every kind carries a
display message, but the no-throw policy is violated by the code: at the failing input
(a relay URL the url crate rejects) request_file panics at the unwrap instead of
returning one of the five kinds as a Result value. -/
theorem error_taxonomy_closed_but_unwrap_panics :
    Fintype.card ErrorKind = 5 ∧
    (PylonError.CodegenError "m").message = "Error generating wormhole code: m" ∧
    (PylonError.RelayHintParseError "c").message = "Error parsing relay server URL" ∧
    (PylonError.TransferError "c").message = "Error occured during transfer" ∧
    (PylonError.InternalError "c").message = "c" ∧
    (PylonError.Error "m").message = "An error occured: m" ∧
    (pEmptyRelay.request_file envDemo).1
        = .panicked "called Result::unwrap on an Err value" := by
  refine ⟨by decide, rfl, rfl, rfl, rfl, rfl, rfl⟩

/-- Updating the wormhole field to none is the identity on sessions whose wormhole is
already absent, mirroring Option::take on a None field. -/
theorem set_wormhole_none_eq (p : Pylon) (hw : p.wormhole = none) :
    { p with wormhole := none } = p := by
  cases p
  simp_all

/-- gen_code never writes the wormhole field. -/
theorem gen_code_preserves_wormhole (p : Pylon) (env : Env) (n : Nat) :
    (p.gen_code env n).2.1.wormhole = p.wormhole := by
  unfold Pylon.gen_code
  split
  · rfl
  · split
    · rfl
    · split <;> rfl

/-- Whenever relay-hint resolution succeeds, send_file ends with the wormhole taken and
every other field unchanged, whatever the channel and transfer outcomes were. -/
theorem send_file_takes_wormhole (p : Pylon) (env : Env) (name : String) (size : Nat)
    (hints : List RelayHint) (h : resolveRelayHints env p.relay_url = .ok hints) :
    (p.send_file env name size).2.1 = { p with wormhole := none } := by
  cases hw : p.wormhole with
  | none => simp only [Pylon.send_file, h, hw]
  | some wh =>
    simp only [Pylon.send_file, h, hw]
    split <;> rfl

/-- Whenever relay-hint resolution succeeds, request_file ends with the wormhole taken
and the relay URL unchanged, whatever the channel and transfer outcomes were. -/
theorem request_file_takes_wormhole (p : Pylon) (env : Env)
    (hints : List RelayHint) (h : resolveRelayHints env p.relay_url = .ok hints) :
    (p.request_file env).2.1.wormhole = none ∧
    (p.request_file env).2.1.relay_url = p.relay_url := by
  cases hw : p.wormhole with
  | none => simp [Pylon.request_file, h, hw]
  | some wh =>
    simp only [Pylon.request_file, h, hw]
    split <;> exact ⟨rfl, rfl⟩

/-- send_file on a channel-less session whose relay URL resolves to a hint: the generic
precondition error, unchanged state, no external call. -/
theorem send_file_no_wormhole (p : Pylon) (env : Env) (name : String) (size : Nat)
    (hints : List RelayHint) (hw : p.wormhole = none)
    (h : resolveRelayHints env p.relay_url = .ok hints) :
    p.send_file env name size = (.err (.Error "Wormhole not initialized"), p, []) := by
  unfold Pylon.send_file
  rw [h]
  have := set_wormhole_none_eq p hw
  simp only [hw, this]

/-- request_file on a channel-less session whose relay URL resolves to a hint: the
generic precondition error, unchanged state, no external call. -/
theorem request_file_no_wormhole (p : Pylon) (env : Env)
    (hints : List RelayHint) (hw : p.wormhole = none)
    (h : resolveRelayHints env p.relay_url = .ok hints) :
    p.request_file env = (.err (.Error "Wormhole not initialized"), p, []) := by
  unfold Pylon.request_file
  rw [h]
  have := set_wormhole_none_eq p hw
  simp only [hw, this]

/-- send_file never creates a wormhole: a channel-less session stays channel-less. -/
theorem send_file_wormhole_stays_none (p : Pylon) (env : Env) (name : String) (size : Nat)
    (hw : p.wormhole = none) : (p.send_file env name size).2.1.wormhole = none := by
  unfold Pylon.send_file
  split
  · exact hw
  · exact hw
  · simp only [hw]

/-- request_file never creates a wormhole: a channel-less session stays channel-less. -/
theorem request_file_wormhole_stays_none (p : Pylon) (env : Env)
    (hw : p.wormhole = none) : (p.request_file env).2.1.wormhole = none := by
  unfold Pylon.request_file
  split
  · exact hw
  · exact hw
  · simp only [hw]

/-- No public operation assigns the wormhole field: one step preserves its absence. -/
theorem applyOp_wormhole_none (p : Pylon) (op : Op) (hw : p.wormhole = none) :
    (p.applyOp op).wormhole = none := by
  cases op with
  | genCode env n =>
    rw [Pylon.applyOp, gen_code_preserves_wormhole]
    exact hw
  | sendFile env name size => exact send_file_wormhole_stays_none p env name size hw
  | requestFile env => exact request_file_wormhole_stays_none p env hw

/-- Along any run of public calls the wormhole field stays absent. -/
theorem run_wormhole_none (ops : List Op) (p : Pylon) (hw : p.wormhole = none) :
    (p.run ops).wormhole = none := by
  induction ops generalizing p with
  | nil => exact hw
  | cons op ops ih => exact ih (p.applyOp op) (applyOp_wormhole_none p op hw)

/-- C3: no public operation ever assigns the wormhole field, so after any sequence of
public calls on a freshly constructed session the established channel is still absent,
and a send_file or request_file call whose relay URL resolves to a relay hint fails with
the generic precondition error, leaving the session unchanged. -/
theorem wormhole_never_established (cfg : PylonConfig) (ops : List Op) (env : Env)
    (name : String) (size : Nat) (hints : List RelayHint)
    (h : resolveRelayHints env ((Pylon.new cfg).run ops).relay_url = .ok hints) :
    ((Pylon.new cfg).run ops).wormhole = none ∧
    ((Pylon.new cfg).run ops).send_file env name size
        = (.err (.Error "Wormhole not initialized"), (Pylon.new cfg).run ops, []) ∧
    ((Pylon.new cfg).run ops).request_file env
        = (.err (.Error "Wormhole not initialized"), (Pylon.new cfg).run ops, []) := by
  have hw : ((Pylon.new cfg).run ops).wormhole = none := run_wormhole_none ops _ rfl
  exact ⟨hw, send_file_no_wormhole _ env name size hints hw h,
         request_file_no_wormhole _ env hints hw h⟩

/-- Witness for C3: generate a code, then attempt a transfer in each direction. -/
theorem wormhole_never_established_witness :
    ((Pylon.new cfgDemo).run [.genCode envDemo 2]).wormhole = none ∧
    ((Pylon.new cfgDemo).run [.genCode envDemo 2]).send_file envDemo "test.bin" 1024
        = (.err (.Error "Wormhole not initialized"),
           (Pylon.new cfgDemo).run [.genCode envDemo 2], []) ∧
    ((Pylon.new cfgDemo).run [.genCode envDemo 2]).request_file envDemo
        = (.err (.Error "Wormhole not initialized"),
           (Pylon.new cfgDemo).run [.genCode envDemo 2], []) :=
  wormhole_never_established cfgDemo [.genCode envDemo 2] envDemo "test.bin" 1024
    ["tcp://transit.magic-wormhole.io:4001"] rfl

/-- C8: in every session state reachable from a freshly constructed Pylon by public
calls, at most one of the pending handshake and the established channel is populated. -/
theorem handshake_channel_mutually_exclusive (cfg : PylonConfig) (ops : List Op) :
    ((Pylon.new cfg).run ops).handshake = none ∨ ((Pylon.new cfg).run ops).wormhole = none :=
  Or.inr (run_wormhole_none ops _ rfl)

/-- C4: a send_file or request_file call that reaches the channel-consumption step (its
relay URL resolves to a relay hint) leaves the channel absent afterwards, even when the
call fails, so a subsequent send_file or request_file call on the session fails with the
generic precondition error. -/
theorem channel_single_use (p : Pylon) (env env2 : Env) (name name2 : String)
    (size size2 : Nat) (hints hints2 : List RelayHint)
    (h : resolveRelayHints env p.relay_url = .ok hints)
    (h2 : resolveRelayHints env2 p.relay_url = .ok hints2) :
    ((p.send_file env name size).2.1.wormhole = none ∧
      ((p.send_file env name size).2.1.send_file env2 name2 size2).1
          = .err (.Error "Wormhole not initialized") ∧
      ((p.send_file env name size).2.1.request_file env2).1
          = .err (.Error "Wormhole not initialized")) ∧
    ((p.request_file env).2.1.wormhole = none ∧
      ((p.request_file env).2.1.send_file env2 name2 size2).1
          = .err (.Error "Wormhole not initialized") ∧
      ((p.request_file env).2.1.request_file env2).1
          = .err (.Error "Wormhole not initialized")) := by
  have hs := send_file_takes_wormhole p env name size hints h
  have hr := request_file_takes_wormhole p env hints h
  constructor
  · rw [hs]
    have h2s : resolveRelayHints env2 (Pylon.relay_url { p with wormhole := none })
        = .ok hints2 := h2
    refine ⟨rfl, ?_, ?_⟩
    · rw [send_file_no_wormhole _ env2 name2 size2 hints2 rfl h2s]
    · rw [request_file_no_wormhole _ env2 hints2 rfl h2s]
  · have h2r : resolveRelayHints env2 (p.request_file env).2.1.relay_url = .ok hints2 := by
      rw [hr.2]; exact h2
    refine ⟨hr.1, ?_, ?_⟩
    · rw [send_file_no_wormhole _ env2 name2 size2 hints2 hr.1 h2r]
    · rw [request_file_no_wormhole _ env2 hints2 hr.1 h2r]

/-- Witness for C4: a connected session transfers once; the second call in either
direction then fails with the precondition error. -/
theorem channel_single_use_witness :
    ((pConnected.send_file envDemo "test.bin" 1024).2.1.wormhole = none ∧
      ((pConnected.send_file envDemo "test.bin" 1024).2.1.send_file envDemo "b.bin" 1).1
          = .err (.Error "Wormhole not initialized") ∧
      ((pConnected.send_file envDemo "test.bin" 1024).2.1.request_file envDemo).1
          = .err (.Error "Wormhole not initialized")) ∧
    ((pConnected.request_file envDemo).2.1.wormhole = none ∧
      ((pConnected.request_file envDemo).2.1.send_file envDemo "b.bin" 1).1
          = .err (.Error "Wormhole not initialized") ∧
      ((pConnected.request_file envDemo).2.1.request_file envDemo).1
          = .err (.Error "Wormhole not initialized")) :=
  channel_single_use pConnected envDemo envDemo "test.bin" "b.bin" 1024 1
    ["tcp://transit.magic-wormhole.io:4001"] ["tcp://transit.magic-wormhole.io:4001"]
    rfl rfl

/-- C5 as stated is false on the code: this session has no established channel, yet
send_file and request_file return the relay-hint parse error kind, not the generic
precondition kind, because relay-hint resolution runs before the channel check; the
relay URL here parses as a URL but is not a valid relay hint. -/
theorem no_channel_error_not_generic :
    pBadHintRelay.wormhole = none ∧
    (pBadHintRelay.send_file envDemo "test.bin" 1024).1
        = .err (.RelayHintParseError "Unknown scheme") ∧
    (pBadHintRelay.send_file envDemo "test.bin" 1024).1.errKind ≠ some .genericError ∧
    (pBadHintRelay.request_file envDemo).1
        = .err (.RelayHintParseError "Unknown scheme") := by
  refine ⟨rfl, rfl, by decide, rfl⟩

/-- C5 amended: for every session with no established channel whose relay URL resolves
to a relay hint, send_file and request_file fail with the generic error kind and leave
the session state unchanged. -/
theorem no_channel_generic_error (p : Pylon) (env : Env) (name : String) (size : Nat)
    (hints : List RelayHint) (hw : p.wormhole = none)
    (h : resolveRelayHints env p.relay_url = .ok hints) :
    p.send_file env name size = (.err (.Error "Wormhole not initialized"), p, []) ∧
    p.request_file env = (.err (.Error "Wormhole not initialized"), p, []) :=
  ⟨send_file_no_wormhole p env name size hints hw h,
   request_file_no_wormhole p env hints hw h⟩

/-- Witness for the amended C5: a fresh session with the demo relay URL. -/
theorem no_channel_generic_error_witness :
    pFresh.send_file envDemo "test.bin" 1024
        = (.err (.Error "Wormhole not initialized"), pFresh, []) ∧
    pFresh.request_file envDemo
        = (.err (.Error "Wormhole not initialized"), pFresh, []) :=
  no_channel_generic_error pFresh envDemo "test.bin" 1024
    ["tcp://transit.magic-wormhole.io:4001"] rfl rfl

/-- C6: on an idle session (no pending handshake, no established channel) gen_code
returns the generated human-readable code and stores the in-flight handshake when the
rendezvous connection succeeds, and returns the wrapped connection error leaving the
pending handshake absent when it fails; the connection is attempted in both cases. -/
theorem gen_code_idle (p : Pylon) (env : Env) (n : Nat) (code : String) (hs : Handshake)
    (e : String) (h1 : p.handshake = none) (h2 : p.wormhole = none) :
    (env.connectWithoutCode p.config n = .ok (code, hs) →
      p.gen_code env n = (.ok code, { p with handshake := some hs }, [.connect])) ∧
    (env.connectWithoutCode p.config n = .error e →
      p.gen_code env n = (.err (.InternalError e), p, [.connect])) := by
  constructor <;> intro hc <;> simp [Pylon.gen_code, h1, h2, hc]

/-- Witness for C6: a fresh session generating a 2-word code under an environment whose
rendezvous connection succeeds. -/
theorem gen_code_idle_witness :
    pFresh.gen_code envDemo 2
        = (.ok "7-guitarist-revenge", { pFresh with handshake := some 7 }, [.connect]) :=
  (gen_code_idle pFresh envDemo 2 "7-guitarist-revenge" 7 "unused" rfl rfl).1 rfl

/-- C7: on a session with an established channel whose relay URL resolves to a relay
hint, a request_file call whose transfer-layer request succeeds returns ok and stores
the returned offer — possibly absent — as the pending transfer request; an absent offer
is not an error. -/
theorem request_file_stores_offer (p : Pylon) (env : Env) (wh : Wormhole)
    (hints : List RelayHint) (req : Option ReceiveRequest)
    (hw : p.wormhole = some wh)
    (h : resolveRelayHints env p.relay_url = .ok hints)
    (ht : env.transferRequest wh hints = .ok req) :
    p.request_file env
        = (.ok (), { p with wormhole := none, transfer_request := req },
           [.transferRequestCall]) := by
  simp [Pylon.request_file, h, hw, ht]

/-- Witness for C7: a connected session whose peer offers nothing; the call succeeds and
the pending transfer request stays absent. -/
theorem request_file_stores_offer_witness :
    pConnected.request_file envDemo
        = (.ok (), { pConnected with wormhole := none, transfer_request := none },
           [.transferRequestCall]) :=
  request_file_stores_offer pConnected envDemo 42
    ["tcp://transit.magic-wormhole.io:4001"] none rfl rfl rfl

/-- The running totals of prefixSums form a non-decreasing chain from the accumulator. -/
theorem chain_prefixSums (cs : List Nat) (acc : Nat) :
    List.Chain (· ≤ ·) acc (prefixSums cs acc) := by
  induction cs generalizing acc with
  | nil => exact List.Chain.nil
  | cons c cs ih => exact List.Chain.cons (Nat.le_add_right acc c) (ih (acc + c))

/-- The last running total of prefixSums over a nonempty chunk list is the accumulator
plus the sum of the chunks. -/
theorem prefixSums_getLast (cs : List Nat) (acc : Nat) (h : cs ≠ []) :
    (prefixSums cs acc).getLast? = some (acc + cs.sum) := by
  induction cs generalizing acc with
  | nil => exact absurd rfl h
  | cons c cs ih =>
    cases cs with
    | nil => simp [prefixSums]
    | cons d ds =>
      have ih2 := ih (acc + c) (by simp)
      simp only [prefixSums] at ih2 ⊢
      rw [List.getLast?_cons_cons, ih2]
      congr 1
      simp [Nat.add_assoc]

/-- getLast? commutes with map. -/
theorem getLast?_map_eq (f : α → β) (l : List α) :
    (l.map f).getLast? = (l.getLast?).map f := by
  induction l with
  | nil => rfl
  | cons a l ih =>
    cases l with
    | nil => rfl
    | cons b l => simpa using ih

/-- C10: modelled from the spec — during a successful send of an N-byte file (the chunk
sizes streamed by the transfer layer sum to N and at least one chunk boundary is
reported), the bytes_sent values passed to the progress handler are non-decreasing, the
final call reports N bytes sent, and every call passes the total N as second argument. -/
theorem progress_monotone (N : Nat) (chunks : List Nat)
    (h1 : chunks ≠ []) (h2 : chunks.sum = N) :
    List.Chain' (· ≤ ·) ((progressCalls N chunks).map Prod.fst) ∧
    (progressCalls N chunks).getLast? = some (N, N) ∧
    (progressCalls N chunks).map Prod.snd
        = List.replicate (progressCalls N chunks).length N := by
  refine ⟨?_, ?_, ?_⟩
  · have hchain : List.Chain (· ≤ ·) 0 (prefixSums chunks 0) := chain_prefixSums chunks 0
    have : List.Chain' (· ≤ ·) (0 :: prefixSums chunks 0) := hchain
    have htail := this.tail
    simpa [progressCalls, List.map_map, Function.comp_def] using htail
  · rw [progressCalls, getLast?_map_eq, prefixSums_getLast chunks 0 h1]
    simp [h2]
  · simp [progressCalls, List.map_map, Function.comp_def, List.map_const']

/-- Witness for C10: a 1024-byte file streamed in three chunks. -/
theorem progress_monotone_witness :
    List.Chain' (· ≤ ·) ((progressCalls 1024 [512, 256, 256]).map Prod.fst) ∧
    (progressCalls 1024 [512, 256, 256]).getLast? = some (1024, 1024) ∧
    (progressCalls 1024 [512, 256, 256]).map Prod.snd
        = List.replicate (progressCalls 1024 [512, 256, 256]).length 1024 :=
  progress_monotone 1024 [512, 256, 256] (by decide) (by decide)
